import Mathlib

/-!
# The chat page controller `static/js/app.js`

A shallow embedding of the browser script that drives the document Q&A page:
the five operations bound to the buttons (`setupDatabase`, `deleteDatabase`,
`updateDatabase`, `listDocuments`, `askQuestion`), their promise handlers, and
the helpers `log`, `showMessage`, `displayDocuments`, `displayResponse`,
`formatText` and `markdownToHtml`.

Modelling conventions.

* The page is an explicit state (`Page`): the value of the input box, the
  children of the chat log, the banner, the document list, the pending
  timers, the console and the requests handed to `fetch`.
* Script code that can throw runs in `Js`, a state-and-exception monad in
  which the page survives a throw; `tryCatch` is the `try`/`catch` statement.
* A `fetch(..).then(r => r.json()).then(f).catch(g)` chain is split into the
  synchronous part (a function on pages) and the settlement of the chain
  (`promiseChain f g outcome`), which the event loop runs later on whatever
  the page has become.
* JavaScript strings are Lean strings, so they are sequences of code points;
  lone surrogates are outside the model.  Lengths are counted in UTF-16 code
  units as the script sees them.
* Time is a virtual clock in milliseconds (`Page.now`) advanced by `elapse`.
* The optional globals `markdownit` and `Prism` are parameters (`Env`).
* The elements the script looks up by id are present in the page.  The
  registration of the listeners on `DOMContentLoaded` is not modelled: a click
  or the Enter key runs the operation bound to it.
-/

namespace ChatApp

/-! ## JavaScript values -/

/-- A value produced by `JSON.parse`, plus `undefined` for absent properties.
Numbers are restricted to integers. -/
inductive JsVal where
  | undefined
  | null
  | bool (b : Bool)
  | num (n : Int)
  | str (s : String)
  | arr (items : List JsVal)
  | obj (props : List (String × JsVal))

/-- A thrown value: an `Error` object with its `name` and `message`. -/
structure JsError where
  name : String
  message : String

/-- The `TypeError` raised by a property read on `null`/`undefined` or by
calling something that is not a function.  The wording of the message is
engine specific. -/
def typeError (message : String) : JsError := ⟨"TypeError", message⟩

/-- The `ReferenceError` raised by reading an undeclared global. -/
def referenceError (ident : String) : JsError :=
  ⟨"ReferenceError", ident ++ " is not defined"⟩

/-- The `NotFoundError` `DOMException` of `removeChild`. -/
def notFoundError : JsError :=
  ⟨"NotFoundError", "The node to be removed is not a child of this node."⟩

/-- The method `Error.prototype.toString`, used when an error is interpolated into a
template literal. -/
def JsError.toStr (e : JsError) : String :=
  if e.name = "" then e.message
  else if e.message = "" then e.name
  else e.name ++ ": " ++ e.message

mutual
/-- The abstract operation `ToString`, as applied by template literals. -/
def JsVal.toStr : JsVal → String
  | .undefined => "undefined"
  | .null => "null"
  | .bool b => if b then "true" else "false"
  | .num n => toString n
  | .str s => s
  | .arr items => JsVal.join items
  | .obj _ => "[object Object]"
termination_by structural v => v
/-- The method `Array.prototype.join(",")`, which is what `ToString` of an array
calls: `null` and `undefined` elements contribute the empty string. -/
def JsVal.join : List JsVal → String
  | [] => ""
  | v :: rest =>
    (match v with
      | .undefined => ""
      | .null => ""
      | .bool b => JsVal.toStr (.bool b)
      | .num n => JsVal.toStr (.num n)
      | .str s => JsVal.toStr (.str s)
      | .arr items => JsVal.join items
      | .obj props => JsVal.toStr (.obj props))
      ++ (if rest.isEmpty then "" else ",") ++ JsVal.join rest
termination_by structural l => l
end

/-- Number of UTF-16 code units of a string: the `length` of a JavaScript
string. -/
def utf16Length (s : String) : Nat :=
  s.data.foldl (fun n c => n + (if 0x10000 ≤ c.toNat then 2 else 1)) 0

/-- Lookup of an own property in a parsed object. -/
def lookupProp (key : String) : List (String × JsVal) → JsVal
  | [] => .undefined
  | (k, v) :: rest => if k = key then v else lookupProp key rest

/-- The property read `v.key`, for the keys the script reads (`status`,
`message`, `documents`, `response`, `length`).  Reading a property of
`null` or `undefined` throws a `TypeError`; strings and arrays have a
`length`; every other read of a missing property yields `undefined`. -/
def getProp (v : JsVal) (key : String) : Except JsError JsVal :=
  match v with
  | .undefined => .error (typeError ("Cannot read properties of undefined (reading " ++ key ++ ")"))
  | .null => .error (typeError ("Cannot read properties of null (reading " ++ key ++ ")"))
  | .obj props => .ok (lookupProp key props)
  | .str s => .ok (if key = "length" then .num (utf16Length s) else .undefined)
  | .arr items => .ok (if key = "length" then .num items.length else .undefined)
  | .bool _ => .ok .undefined
  | .num _ => .ok .undefined

/-- The comparison `v === s` against a string literal. -/
def JsVal.isString (v : JsVal) (s : String) : Bool :=
  match v with
  | .str t => t == s
  | _ => false

/-- The comparison `v === n` against a number literal. -/
def JsVal.isNumber (v : JsVal) (n : Int) : Bool :=
  match v with
  | .num m => m == n
  | _ => false

/-! ## Strings: `trim`, `JSON.stringify`, `replace` -/

/-- The code points removed by `String.prototype.trim`: ECMAScript
`WhiteSpace` and `LineTerminator`. -/
def isJsWhiteSpace (c : Char) : Bool :=
  c.toNat ∈ [0x9, 0xA, 0xB, 0xC, 0xD, 0x20, 0xA0, 0x1680, 0x2028, 0x2029,
    0x202F, 0x205F, 0x3000, 0xFEFF]
    || (0x2000 ≤ c.toNat && c.toNat ≤ 0x200A)

/-- The method `String.prototype.trim`. -/
def jsTrim (s : String) : String :=
  String.mk ((s.data.dropWhile isJsWhiteSpace).reverse.dropWhile isJsWhiteSpace).reverse

/-- Lower-case hexadecimal digit. -/
def hexDigit (n : Nat) : Char :=
  if n < 10 then Char.ofNat (48 + n) else Char.ofNat (87 + n)

/-- The escape `JSON.stringify` writes for one code point of a string
(`QuoteJSONString`). -/
def jsonEscapeChar (c : Char) : List Char :=
  if c.toNat = 0x22 then "\\\"".data
  else if c.toNat = 0x5C then "\\\\".data
  else if c.toNat = 0x8 then "\\b".data
  else if c.toNat = 0xC then "\\f".data
  else if c.toNat = 0xA then "\\n".data
  else if c.toNat = 0xD then "\\r".data
  else if c.toNat = 0x9 then "\\t".data
  else if c.toNat < 0x20 then
    "\\u00".data ++ [hexDigit (c.toNat / 16), hexDigit (c.toNat % 16)]
  else [c]

/-- The value of `JSON.stringify` for a string. -/
def jsonQuote (s : String) : String :=
  String.mk ("\"".data ++ s.data.flatMap jsonEscapeChar ++ "\"".data)

/-- The value of `JSON.stringify` for an object literal whose property values are strings;
the script serialises the empty object and the object with the one property
`question`. -/
def jsonStringify (props : List (String × String)) : String :=
  "\x7b" ++ ",".intercalate (props.map (fun kv => jsonQuote kv.1 ++ ":" ++ jsonQuote kv.2)) ++ "\x7d"

/-- The method `String.prototype.replace` with a global regular expression.  `matchAt`
is the regular expression anchored at the head of the remaining input: it
returns the replacement for the match and the input after the match.  The
scan proceeds from left to right, resumes after each match, and copies a
character where no match starts.  The first argument is fuel. -/
def replaceAllAux (matchAt : List Char → Option (List Char × List Char)) :
    Nat → List Char → List Char
  | 0, s => s
  | _ + 1, [] => []
  | fuel + 1, c :: cs =>
    match matchAt (c :: cs) with
    | some (replacement, rest) => replacement ++ replaceAllAux matchAt fuel rest
    | none => c :: replaceAllAux matchAt fuel cs

/-- Global replace; every match of the four expressions used below is
non-empty, so the length of the input is enough fuel. -/
def replaceAll (matchAt : List Char → Option (List Char × List Char)) (s : List Char) :
    List Char :=
  replaceAllAux matchAt s.length s

/-- The backtick character. -/
def backtick : Char := Char.ofNat 96

/-- The line feed character. -/
def lineFeed : Char := Char.ofNat 10

/-- Three backticks. -/
def fence : List Char := [backtick, backtick, backtick]

/-- The lazy body of the code-block expression followed by the closing
fence: the shortest prefix followed by three backticks, and what follows
them. -/
def splitAtFence : List Char → Option (List Char × List Char)
  | [] => none
  | c :: cs =>
    if fence.isPrefixOf (c :: cs) then some ([], (c :: cs).drop 3)
    else (splitAtFence cs).map (fun r => (c :: r.1, r.2))

/-- The code-block expression: three backticks, a lazy run of any characters
(captured), three backticks; with its replacer. -/
def matchCodeBlock (s : List Char) : Option (List Char × List Char) :=
  if fence.isPrefixOf s then
    (splitAtFence (s.drop 3)).map
      (fun r => ("<pre><code>".data ++ r.1 ++ "</code></pre>".data, r.2))
  else none

/-- The inline-code expression: a backtick, one or more characters other
than a backtick (captured), a backtick; with its replacer. -/
def matchInlineCode : List Char → Option (List Char × List Char)
  | [] => none
  | c :: cs =>
    if c = backtick then
      match cs.takeWhile (fun d => d ≠ backtick), cs.dropWhile (fun d => d ≠ backtick) with
      | d :: ds, _ :: rest => some ("<code>".data ++ (d :: ds) ++ "</code>".data, rest)
      | _, _ => none
    else none

/-- The expression of two line feeds, replaced by a paragraph break. -/
def matchBlankLine : List Char → Option (List Char × List Char)
  | a :: b :: rest =>
    if a = lineFeed ∧ b = lineFeed then some ("</p><p>".data, rest) else none
  | _ => none

/-- The expression of one line feed, replaced by a line break. -/
def matchLineFeed : List Char → Option (List Char × List Char)
  | a :: rest => if a = lineFeed then some ("<br>".data, rest) else none
  | [] => none

/-- The function `formatText` on strings: code blocks, inline code, paragraphs,
line breaks, wrapped in one paragraph. -/
def formatText (text : String) : String :=
  let text := replaceAll matchCodeBlock text.data
  let text := replaceAll matchInlineCode text
  let text := replaceAll matchBlankLine text
  let text := replaceAll matchLineFeed text
  "<p>" ++ String.mk text ++ "</p>"

/-! ## The page -/

/-- A DOM subtree below an element the script has created.  Markup assigned
through `innerHTML` is kept as its source text. -/
inductive Node where
  | text (data : String)
  | markup (html : String)
  | element (tag : String) (className : String) (children : List Node)

/-- An element obtained from `document.createElement`.  The `id` is the
identity of the object, by which `removeChild` and `contains` find it. -/
structure Element where
  id : Nat
  tag : String
  className : String
  children : List Node

/-- The subtree an element becomes once it is appended below another. -/
def Element.toNode (e : Element) : Node :=
  .element e.tag e.className e.children

/-- The assignment `e.textContent = s`: all children are replaced by one text
node, or by nothing when the string is empty. -/
def Element.setTextContent (e : Element) (s : String) : Element :=
  { e with children := if s = "" then [] else [.text s] }

/-- The assignment `e.innerHTML = html`. -/
def Element.setInnerHTML (e : Element) (html : String) : Element :=
  { e with children := if html = "" then [] else [.markup html] }

/-- The conversion applied to a value assigned to `textContent`: `null`
becomes the empty string, everything else goes through `ToString`. -/
def textContentOf : JsVal → String
  | .null => ""
  | v => v.toStr

/-- One line written to the console: `console[level]` was called with the
timestamp of `time` followed by `message`. -/
structure LogEntry where
  time : Nat
  level : String
  message : String

/-- A call of `fetch`. -/
structure Request where
  url : String
  method : String
  headers : List (String × String)
  body : Option String

/-- The element `#message`. -/
structure Banner where
  textContent : String
  className : String
  display : String

/-- The state of the page and of the script's surroundings. -/
structure Page where
  /-- Virtual clock, in milliseconds. -/
  now : Nat
  /-- Identity given to the next created element. -/
  nextId : Nat
  /-- Value of `#user-input`. -/
  userInput : String
  /-- Children of `#chat-messages`, in document order. -/
  chatMessages : List Element
  /-- How often the chat log has been scrolled to its end. -/
  chatScrolls : Nat
  /-- The element `#message`. -/
  message : Banner
  /-- Children of `#document-list`. -/
  documentList : List Node
  /-- The `style.display` of `#document-list`. -/
  documentListDisplay : String
  /-- Due times of the pending `setTimeout` callbacks; the only callback the
  script ever schedules hides the banner. -/
  timers : List Nat
  /-- Lines written to the console. -/
  console : List LogEntry
  /-- Calls of `fetch`, in order. -/
  requests : List Request

/-- The result of running script code: it returns or throws, and the page is
kept in both cases. -/
inductive Completion (α : Type) where
  | normal (value : α) (page : Page)
  | throw (error : JsError) (page : Page)

/-- The page after the code has run. -/
def Completion.page {α : Type} : Completion α → Page
  | .normal _ p => p
  | .throw _ p => p

/-- Whether the code threw. -/
def Completion.threw {α : Type} : Completion α → Bool
  | .normal _ _ => false
  | .throw _ _ => true

/-- Script code acting on the page. -/
def Js (α : Type) : Type := Page → Completion α

/-- Sequencing of statements. -/
def Js.bind {α β : Type} (m : Js α) (f : α → Js β) : Js β := fun p =>
  match m p with
  | .normal a q => f a q
  | .throw e q => .throw e q

instance : Monad Js where
  pure a := fun p => .normal a p
  bind := Js.bind

/-- The statement `throw`. -/
def Js.throw {α : Type} (e : JsError) : Js α := fun p => .throw e p

/-- A statement that cannot throw. -/
def Js.run (f : Page → Page) : Js Unit := fun p => .normal () (f p)

/-- An expression that may throw and does not touch the page. -/
def Js.eval {α : Type} (r : Except JsError α) : Js α := fun p =>
  match r with
  | .ok a => .normal a p
  | .error e => .throw e p

/-- The statement `try body catch (e) handler`. -/
def tryCatch {α : Type} (body : Js α) (handler : JsError → Js α) : Js α := fun p =>
  match body p with
  | .normal a q => .normal a q
  | .throw e q => handler e q

/-- How a `fetch(..).then(response => response.json())` chain settles: the
request or the parsing of the body fails, or the body parses to a value. -/
inductive Outcome where
  | rejected (error : JsError)
  | parsed (data : JsVal)

/-- The tail `.then(onData).catch(onError)` of a chain: a rejection goes to
`onError`, a value goes to `onData`, and whatever `onData` throws goes to
`onError`. -/
def promiseChain (onData : JsVal → Js Unit) (onError : JsError → Js Unit) :
    Outcome → Js Unit
  | .rejected error => onError error
  | .parsed data => tryCatch (onData data) onError

/-! ## DOM primitives -/

/-- The call `document.createElement(tag)`. -/
def createElement (tag : String) : Js Element := fun p =>
  .normal ⟨p.nextId, tag, "", []⟩ { p with nextId := p.nextId + 1 }

/-- The call `document.getElementById('chat-messages').appendChild(e)` for a
new element. -/
def appendChat (e : Element) (p : Page) : Page :=
  { p with chatMessages := p.chatMessages ++ [e] }

/-- The call `document.getElementById('chat-messages').contains(e)` for the
element of identity `id`.  The script only ever asks for the loading
indicator, which it appends to the chat log itself, so the search stops at the
children. -/
def chatContains (id : Nat) (p : Page) : Bool :=
  p.chatMessages.any (fun e => e.id == id)

/-- The call `document.getElementById('chat-messages').removeChild(e)` for the
element of identity `id`; a `NotFoundError` when it is not a child.  A node
occurs once among the children, so no child of that identity is left. -/
def removeChat (id : Nat) : Js Unit := fun p =>
  if chatContains id p then
    .normal () { p with chatMessages := p.chatMessages.filter (fun e => e.id != id) }
  else .throw notFoundError p

/-- The assignment of `scrollHeight` to the `scrollTop` of the chat log. -/
def scrollChatToEnd (p : Page) : Page :=
  { p with chatScrolls := p.chatScrolls + 1 }

/-- The call `fetch(url, init)`: the request is handed to the network. -/
def fetch (request : Request) (p : Page) : Page :=
  { p with requests := p.requests ++ [request] }

/-- The `init` object of the POST requests. -/
def postJson (url body : String) : Request :=
  ⟨url, "POST", [("Content-Type", "application/json")], some body⟩

/-- The request of `fetch(url)` without an `init` object. -/
def getRequest (url : String) : Request :=
  ⟨url, "GET", [], none⟩

/-- Time passes: the clock advances by `dt` and every timer that has come
due runs its callback, `messageElement.style.display = 'none'`. -/
def elapse (dt : Nat) (p : Page) : Page :=
  { p with
    now := p.now + dt
    timers := p.timers.filter (fun due => decide (p.now + dt < due))
    message :=
      if p.timers.any (fun due => decide (due ≤ p.now + dt)) then
        { p.message with display := "none" }
      else p.message }

/-! ## The script -/

/-- The function `log(message, level)`; callers that omit `level` get
`info`. -/
def log (message : String) (level : String) (p : Page) : Page :=
  { p with console := p.console ++ [⟨p.now, level, message⟩] }

/-- The function `showMessage(message, type)`. -/
def showMessage (message : String) (type : String) (p : Page) : Page :=
  { p with
    message := ⟨message, "alert alert-" ++ type, "block"⟩
    timers := p.timers ++ [p.now + 5000] }

/-- A grammar object stored in `Prism.languages`. -/
structure Grammar where
  name : String

/-- The global `Prism`, when the syntax highlighter is loaded. -/
structure PrismLib where
  /-- The lookup `Prism.languages[lang]`; `none` for a falsy result. -/
  languages : String → Option Grammar
  /-- The call `Prism.highlight(str, grammar, lang)`. -/
  highlight : String → Grammar → String → Except JsError String
  /-- The call `Prism.highlightAllUnder(container)`: it rewrites the subtree
  below the container and may throw after doing so. -/
  highlightAllUnder : List Node → List Node × Option JsError

/-- The type of the `highlight` option handed to the markdown renderer. -/
abbrev Highlight : Type := String → String → Except JsError String

/-- The optional third-party globals. -/
structure Env where
  /-- The global `markdownit`, when the markdown renderer is loaded: the
  call `markdownit(options).render(markdown)` as a function of the `highlight`
  option and of the argument of `render`.  The other options are constants
  (`html: false`, `linkify: true`, `typographer: true`). -/
  markdownit : Option (Highlight → JsVal → Except JsError String)
  /-- The global `Prism`. -/
  Prism : Option PrismLib

/-- The function passed as the `highlight` option in `markdownToHtml`. -/
def highlightCallback (env : Env) (str : String) (lang : String) : Except JsError String :=
  if lang ≠ "" then
    match env.Prism with
    | none => .error (referenceError "Prism")
    | some prism =>
      match prism.languages lang with
      | some grammar =>
        match prism.highlight str grammar lang with
        | .ok html => .ok html
        | .error _ => .ok ""
      | none => .ok ""
  else .ok ""

/-- The call `text.replace(..)` at the head of `formatText` for an argument of
any type: only strings have a `replace` method. -/
def formatTextOf : JsVal → Except JsError String
  | .str text => .ok (formatText text)
  | _ => .error (typeError "text.replace is not a function")

/-- The function `markdownToHtml(markdown)`. -/
def markdownToHtml (env : Env) (markdown : JsVal) : Except JsError String :=
  match env.markdownit with
  | some render => render (highlightCallback env) markdown
  | none => formatTextOf markdown

/-- The call `Prism.highlightAllUnder(assistantMessage)` on the element of
identity `id`, which is in the chat log by then. -/
def highlightAllUnder (prism : PrismLib) (id : Nat) : Js Unit := fun p =>
  let page := { p with
    chatMessages := p.chatMessages.map (fun e =>
      if e.id = id then { e with children := (prism.highlightAllUnder e.children).1 } else e) }
  match p.chatMessages.find? (fun e => e.id == id) with
  | some e =>
    match (prism.highlightAllUnder e.children).2 with
    | some error => .throw error page
    | none => .normal () page
  | none => .normal () page

/-- The function `displayResponse(response)`.  The test
`typeof markdownToHtml === 'function'` is true, the function being declared
in the same script, so the branch that calls `formatText` directly is never
taken. -/
def displayResponse (env : Env) (response : JsVal) : Js Unit := do
  let length ← Js.eval (getProp response "length")
  Js.run (log ("Válasz megjelenítése (" ++ length.toStr ++ " karakter)") "info")
  tryCatch
    (do
      let assistantMessage ← createElement "div"
      let assistantMessage := { assistantMessage with className := "assistant-message" }
      let html ← Js.eval (markdownToHtml env response)
      let assistantMessage := assistantMessage.setInnerHTML html
      Js.run (appendChat assistantMessage)
      Js.run scrollChatToEnd
      match env.Prism with
      | some prism => highlightAllUnder prism assistantMessage.id
      | none => pure ())
    (fun error => do
      Js.run (log ("Hiba a válasz megjelenítése közben: " ++ error.toStr) "error")
      let fallbackMessage ← createElement "div"
      let fallbackMessage := { fallbackMessage with className := "assistant-message" }
      let fallbackMessage := fallbackMessage.setTextContent (textContentOf response)
      Js.run (appendChat fallbackMessage))

/-- The body of `documents.forEach(doc => ..)`: one `li` per document, appended
to the list element. -/
def appendItems : List JsVal → Element → Js Element
  | [], ul => pure ul
  | doc :: rest, ul => do
    let li ← createElement "li"
    let li := li.setTextContent (textContentOf doc)
    appendItems rest { ul with children := ul.children ++ [li.toNode] }

/-- The function `displayDocuments(documents)`. -/
def displayDocuments (documents : JsVal) : Js Unit := do
  Js.run (fun p => { p with documentList := [.markup "<h5>Talált dokumentumok:</h5>"] })
  let length ← Js.eval (getProp documents "length")
  (if length.isNumber 0 then do
      let emptyNotice ← createElement "p"
      let emptyNotice := emptyNotice.setTextContent "Nem található dokumentum az adatbázisban."
      Js.run (fun p => { p with documentList := p.documentList ++ [emptyNotice.toNode] })
    else do
      let ul ← createElement "ul"
      let ul ← (match documents with
        | .arr items => appendItems items ul
        | _ => Js.throw (typeError "documents.forEach is not a function"))
      Js.run (fun p => { p with documentList := p.documentList ++ [ul.toNode] }))
  Js.run (fun p => { p with documentListDisplay := "block" })

/-- The `.then(data => ..)` handler shared by `setupDatabase`,
`deleteDatabase` and `updateDatabase`, which differ in their texts only. -/
def databaseThen (done : String) (failed : String) (data : JsVal) : Js Unit := do
  let status ← Js.eval (getProp data "status")
  if status.isString "success" then
    Js.run (log done "info")
    Js.run (showMessage done "success")
  else
    let message ← Js.eval (getProp data "message")
    Js.run (log (failed ++ ": " ++ message.toStr) "error")
    Js.run (showMessage (failed ++ ": " ++ message.toStr) "danger")

/-- The `.catch(error => ..)` handler shared by the same three functions. -/
def databaseCatch (logged : String) (shown : String) (error : JsError) : Js Unit := do
  Js.run (log (logged ++ ": " ++ error.toStr) "error")
  Js.run (showMessage shown "danger")

/-- The function `setupDatabase()`, up to the call of `fetch`. -/
def setupDatabase (p : Page) : Page :=
  fetch (postJson "/setup-database" (jsonStringify []))
    (log "Adatbázis létrehozásának kezdeményezése..." "info" p)

/-- The settlement of the promise chain of `setupDatabase`. -/
def setupDatabaseSettled : Outcome → Js Unit :=
  promiseChain
    (databaseThen "Adatbázis sikeresen létrehozva" "Adatbázis létrehozási hiba")
    (databaseCatch "Hiba az adatbázis létrehozása közben"
      "Hiba történt az adatbázis létrehozása közben")

/-- The function `deleteDatabase()`, up to the call of `fetch`. -/
def deleteDatabase (p : Page) : Page :=
  fetch (postJson "/delete-database" (jsonStringify []))
    (log "Adatbázis törlésének kezdeményezése..." "info" p)

/-- The settlement of the promise chain of `deleteDatabase`. -/
def deleteDatabaseSettled : Outcome → Js Unit :=
  promiseChain
    (databaseThen "Adatbázis sikeresen törölve" "Adatbázis törlési hiba")
    (databaseCatch "Hiba az adatbázis törlése közben"
      "Hiba történt az adatbázis törlése közben")

/-- The function `updateDatabase()`, up to the call of `fetch`. -/
def updateDatabase (p : Page) : Page :=
  fetch (postJson "/update-database" (jsonStringify []))
    (log "Adatbázis frissítésének kezdeményezése..." "info" p)

/-- The settlement of the promise chain of `updateDatabase`. -/
def updateDatabaseSettled : Outcome → Js Unit :=
  promiseChain
    (databaseThen "Adatbázis sikeresen frissítve" "Adatbázis frissítési hiba")
    (databaseCatch "Hiba az adatbázis frissítése közben"
      "Hiba történt az adatbázis frissítése közben")

/-- The function `listDocuments()`, up to the call of `fetch`. -/
def listDocuments (p : Page) : Page :=
  fetch (getRequest "/list-documents")
    (log "Dokumentumok listázásának kezdeményezése..." "info" p)

/-- The `.then(data => ..)` handler of `listDocuments`. -/
def listDocumentsThen (data : JsVal) : Js Unit := do
  let status ← Js.eval (getProp data "status")
  if status.isString "success" then
    let documents ← Js.eval (getProp data "documents")
    let length ← Js.eval (getProp documents "length")
    Js.run (log ("Dokumentumok sikeresen listázva. Talált dokumentumok: " ++ length.toStr) "info")
    displayDocuments documents
  else
    let message ← Js.eval (getProp data "message")
    Js.run (log ("Dokumentum listázási hiba: " ++ message.toStr) "error")
    Js.run (showMessage ("Hiba a dokumentumok listázása közben: " ++ message.toStr) "danger")

/-- The `.catch(error => ..)` handler of `listDocuments`. -/
def listDocumentsCatch (error : JsError) : Js Unit := do
  Js.run (log ("Hiba a dokumentumok listázása közben: " ++ error.toStr) "error")
  Js.run (showMessage "Hiba történt a dokumentumok listázása közben" "danger")

/-- The settlement of the promise chain of `listDocuments`. -/
def listDocumentsSettled : Outcome → Js Unit :=
  promiseChain listDocumentsThen listDocumentsCatch

/-- The markup of the loading indicator. -/
def loadingMarkup : String :=
  "<div class=\"spinner-border spinner-border-sm text-secondary\" role=\"status\">" ++
  "<span class=\"visually-hidden\">Betöltés...</span></div> Válasz generálása..."

/-- The function `askQuestion()`, up to the call of `fetch`.  The result is
the identity of `loadingElement`, which the promise handlers close over, or
`none` when the function returned before sending anything. -/
def askQuestion (p : Page) : Page × Option Nat :=
  let question := jsTrim p.userInput
  if question = "" then
    (showMessage "Kérjük, írjon be egy kérdést!" "danger"
      (log "Üres kérdés elküldésének kísérlete" "warn" p), none)
  else
    let p := log ("Kérdés küldése: \"" ++ question ++ "\"") "info" p
    let userMessageElement : Element :=
      { id := p.nextId, tag := "div", className := "user-message", children := [] }
    let userMessageElement := userMessageElement.setTextContent question
    let p := appendChat userMessageElement { p with nextId := p.nextId + 1 }
    let loadingElement : Element :=
      { id := p.nextId, tag := "div", className := "assistant-message", children := [] }
    let loadingElement := loadingElement.setInnerHTML loadingMarkup
    let p := appendChat loadingElement { p with nextId := p.nextId + 1 }
    let p := scrollChatToEnd p
    let p := { p with userInput := "" }
    (fetch (postJson "/ask" (jsonStringify [("question", question)])) p, some loadingElement.id)

/-- The `.then(data => ..)` handler of `askQuestion`. -/
def askThen (env : Env) (loadingElement : Nat) (data : JsVal) : Js Unit := do
  removeChat loadingElement
  let status ← Js.eval (getProp data "status")
  if status.isString "success" then
    Js.run (log "Válasz sikeresen megérkezett" "info")
    let response ← Js.eval (getProp data "response")
    displayResponse env response
  else
    let message ← Js.eval (getProp data "message")
    Js.run (log ("Hiba a válasz generálása közben: " ++ message.toStr) "error")
    Js.run (showMessage ("Hiba történt a válasz generálása közben: " ++ message.toStr) "danger")
    let errorElement ← createElement "div"
    let errorElement := { errorElement with className := "assistant-message error" }
    let errorElement := errorElement.setTextContent
      ("Hiba történt a kérdés feldolgozása közben: " ++ message.toStr)
    Js.run (appendChat errorElement)
    Js.run scrollChatToEnd

/-- The `.catch(error => ..)` handler of `askQuestion`. -/
def askCatch (loadingElement : Nat) (error : JsError) : Js Unit := do
  (if (← (fun p => Completion.normal (chatContains loadingElement p) p)) then
      removeChat loadingElement
    else pure ())
  Js.run (log ("Hiba a kérdés feldolgozása közben: " ++ error.toStr) "error")
  Js.run (showMessage "Hiba történt a kérdés feldolgozása közben" "danger")
  let errorElement ← createElement "div"
  let errorElement := { errorElement with className := "assistant-message error" }
  let errorElement := errorElement.setTextContent "Hiba történt a kérdés feldolgozása közben"
  Js.run (appendChat errorElement)
  Js.run scrollChatToEnd

/-- The settlement of the promise chain of `askQuestion`. -/
def askQuestionSettled (env : Env) (loadingElement : Nat) : Outcome → Js Unit :=
  promiseChain (askThen env loadingElement) (askCatch loadingElement)

/-! ## Vocabulary of the properties -/

/-- Whether a chain settles with a parsed body whose `status` is the string
`success`.  Everything else is a failure: a rejection, or a body whose
`status` is anything else or cannot be read. -/
def Outcome.isSuccess : Outcome → Bool
  | .rejected _ => false
  | .parsed data =>
    match getProp data "status" with
    | .ok status => status.isString "success"
    | .error _ => false

/-- What the handlers of a failed exchange leave behind, relative to the
page `before` they ran on: nothing escapes as an uncaught exception, `log`
was called once, with level `error`, `showMessage` was called with type
`danger` (banner shown, its hide scheduled), and `fetch` was not called. -/
def FailureReported (before : Page) (result : Completion Unit) : Prop :=
  result.threw = false ∧
  (∃ text, result.page.console = before.console ++ [⟨before.now, "error", text⟩]) ∧
  (∃ text, result.page.message = ⟨text, "alert alert-danger", "block"⟩) ∧
  result.page.timers = before.timers ++ [before.now + 5000] ∧
  result.page.requests = before.requests

/-- Code that never calls `fetch`: it leaves the list of requests as it
found it, whether it returns or throws. -/
def SendsNothing {α : Type} (m : Js α) : Prop :=
  ∀ p, (m p).page.requests = p.requests

/-- An anchored expression whose matches are never empty: what is left after
a match is shorter than the input it was tried on. -/
def Consumes (matchAt : List Char → Option (List Char × List Char)) : Prop :=
  ∀ s replacement rest, matchAt s = some (replacement, rest) → rest.length < s.length

/-- A failure response of the backend. -/
def errorReply : Outcome :=
  .parsed (.obj [("status", .str "error"), ("message", .str "nincs adatbázis")])

/-- A page on which the script has not acted yet. -/
def initialPage : Page :=
  { now := 0, nextId := 0, userInput := "", chatMessages := [], chatScrolls := 0,
    message := ⟨"", "", "none"⟩, documentList := [], documentListDisplay := "none",
    timers := [], console := [], requests := [] }

/-- Neither optional library is loaded. -/
def noLibraries : Env := ⟨none, none⟩

/-- A `Prism` whose `highlightAllUnder` throws, as it does when a hook that a
plugin has registered fails.  No grammar is loaded. -/
def brokenPrism : PrismLib :=
  { languages := fun _ => none
    highlight := fun str _ _ => .ok str
    highlightAllUnder := fun children => (children, some ⟨"Error", "hook failed"⟩) }

/-- A markdown renderer reduced to paragraphs and one leading fenced code
block, which is where the `highlight` option is used.  Like the fence rule of
markdown-it it calls `highlight(code, lang)` with the body of the block and the
language named after the opening fence, falls back to the plain code when the
result is empty, and lets an exception of the callback escape from `render`. -/
def fenceRenderer (highlight : Highlight) (markdown : JsVal) : Except JsError String :=
  match markdown with
  | .str source =>
    if fence.isPrefixOf source.data then
      let opened := source.data.drop 3
      let lang := String.mk (opened.takeWhile (fun c => c ≠ lineFeed))
      let body := (opened.dropWhile (fun c => c ≠ lineFeed)).drop 1
      let code := String.mk (match splitAtFence body with
        | some (code, _) => code
        | none => body)
      match highlight code lang with
      | .ok html =>
        .ok ("<pre><code class=\"language-" ++ lang ++ "\">" ++
          (if html = "" then code else html) ++ "</code></pre>")
      | .error e => .error e
    else .ok ("<p>" ++ source ++ "</p>")
  | _ => .error ⟨"Error", "Input data should be a String"⟩

/-- The page once `askQuestion` has sent the question `hi`. -/
def pendingPage : Page := (askQuestion { initialPage with userInput := " hi " }).1

/-! ## Evaluation rules of `Js` -/

@[simp] theorem bind_apply {α β : Type} (m : Js α) (f : α → Js β) (p : Page) :
    (m >>= f) p = match m p with
      | .normal a q => f a q
      | .throw e q => .throw e q := rfl

@[simp] theorem pure_apply {α : Type} (a : α) (p : Page) :
    (pure a : Js α) p = .normal a p := rfl

@[simp] theorem run_apply (f : Page → Page) (p : Page) :
    Js.run f p = .normal () (f p) := rfl

@[simp] theorem eval_ok {α : Type} (a : α) (p : Page) :
    Js.eval (.ok a) p = .normal a p := rfl

@[simp] theorem eval_error {α : Type} (e : JsError) (p : Page) :
    (Js.eval (.error e) : Js α) p = .throw e p := rfl

@[simp] theorem throw_apply {α : Type} (e : JsError) (p : Page) :
    (Js.throw e : Js α) p = .throw e p := rfl

@[simp] theorem tryCatch_apply {α : Type} (body : Js α) (handler : JsError → Js α) (p : Page) :
    tryCatch body handler p = match body p with
      | .normal a q => .normal a q
      | .throw e q => handler e q := rfl

@[simp] theorem ite_js_apply {α : Type} (c : Prop) [Decidable c] (a b : Js α) (p : Page) :
    (if c then a else b) p = if c then a p else b p := by
  split <;> rfl

@[simp] theorem createElement_apply (tag : String) (p : Page) :
    createElement tag p = .normal ⟨p.nextId, tag, "", []⟩ { p with nextId := p.nextId + 1 } := rfl

/-- A value whose property could be read is neither `null` nor `undefined`,
so its other properties can be read as well. -/
theorem getProp_ok_of_ok {d v : JsVal} {k : String} (h : getProp d k = .ok v) (k2 : String) :
    ∃ w, getProp d k2 = .ok w := by
  cases d <;> simp [getProp] at h ⊢

/-- After `removeChild` the element is no longer a child. -/
theorem chatContains_filter (id : Nat) (l : List Element) :
    (l.filter (fun e => e.id != id)).any (fun e => e.id == id) = false := by
  induction l with
  | nil => rfl
  | cons e l ih =>
    by_cases h : e.id = id
    · simp [List.filter, h, ih]
    · have : (e.id == id) = false := by simpa using h
      simp only [List.filter, bne, this, Bool.not_false, List.any_cons, Bool.false_or]
      exact ih

/-- Removing an element that is not a child changes nothing. -/
theorem filter_of_not_contains (id : Nat) (l : List Element)
    (h : l.any (fun e => e.id == id) = false) : l.filter (fun e => e.id != id) = l := by
  induction l with
  | nil => rfl
  | cons e l ih =>
    simp only [List.any_cons, Bool.or_eq_false_iff] at h
    have ih2 := ih h.2
    simp only [bne] at ih2
    simp only [List.filter, bne, h.1, Bool.not_false, ih2]

/-- The page after `removeChild(loadingElement)`. -/
theorem removeChat_apply (id : Nat) (p : Page) :
    removeChat id p = if chatContains id p then
      .normal () { p with chatMessages := p.chatMessages.filter (fun e => e.id != id) }
    else .throw notFoundError p := rfl

/-- A template literal that starts with fixed text is not empty. -/
theorem append_ne_empty (a b : String) (h : a ≠ "") : a ++ b ≠ "" := by
  intro hab
  apply h
  have := congrArg String.data hab
  simp only [String.data_append] at this
  apply String.ext
  simpa using (List.append_eq_nil.mp this).1

/-- Removing an element twice is removing it once. -/
theorem filter_filter_id (id : Nat) (l : List Element) :
    (l.filter (fun e => e.id != id)).filter (fun e => e.id != id) =
      l.filter (fun e => e.id != id) := by
  simp [List.filter_filter]

/-! ## Code that sends nothing -/

theorem sendsNothing_bind {α β : Type} {m : Js α} {f : α → Js β}
    (hm : SendsNothing m) (hf : ∀ a, SendsNothing (f a)) : SendsNothing (m >>= f) := by
  intro p
  have h1 := hm p
  simp only [bind_apply]
  cases hmp : m p with
  | normal a q =>
    rw [hmp] at h1
    simpa [Completion.page, ← h1] using hf a q
  | throw e q =>
    rw [hmp] at h1
    simpa [Completion.page] using h1

theorem sendsNothing_pure {α : Type} (a : α) : SendsNothing (pure a : Js α) := fun _ => rfl

theorem sendsNothing_run {f : Page → Page} (hf : ∀ p, (f p).requests = p.requests) :
    SendsNothing (Js.run f) := fun p => hf p

theorem sendsNothing_eval {α : Type} (r : Except JsError α) : SendsNothing (Js.eval r) := by
  intro p
  cases r <;> rfl

theorem sendsNothing_throw {α : Type} (e : JsError) : SendsNothing (Js.throw e : Js α) :=
  fun _ => rfl

theorem sendsNothing_tryCatch {α : Type} {body : Js α} {handler : JsError → Js α}
    (hb : SendsNothing body) (hh : ∀ e, SendsNothing (handler e)) :
    SendsNothing (tryCatch body handler) := by
  intro p
  have h1 := hb p
  simp only [tryCatch_apply]
  cases hbp : body p with
  | normal a q =>
    rw [hbp] at h1
    simpa [Completion.page] using h1
  | throw e q =>
    rw [hbp] at h1
    simpa [Completion.page, ← h1] using hh e q

theorem sendsNothing_promiseChain {onData : JsVal → Js Unit} {onError : JsError → Js Unit}
    (hd : ∀ d, SendsNothing (onData d)) (he : ∀ e, SendsNothing (onError e)) (o : Outcome) :
    SendsNothing (promiseChain onData onError o) := by
  cases o with
  | rejected e => exact he e
  | parsed d => exact sendsNothing_tryCatch (hd d) he

theorem sendsNothing_createElement (tag : String) : SendsNothing (createElement tag) :=
  fun _ => rfl

theorem sendsNothing_removeChat (id : Nat) : SendsNothing (removeChat id) := by
  intro p
  unfold removeChat
  split <;> rfl

theorem sendsNothing_highlightAllUnder (prism : PrismLib) (id : Nat) :
    SendsNothing (highlightAllUnder prism id) := by
  intro p
  unfold highlightAllUnder
  split
  · split <;> rfl
  · rfl

theorem sendsNothing_displayResponse (env : Env) (response : JsVal) :
    SendsNothing (displayResponse env response) := by
  unfold displayResponse
  refine sendsNothing_bind (sendsNothing_eval _) fun _ => ?_
  refine sendsNothing_bind (sendsNothing_run fun _ => rfl) fun _ => ?_
  refine sendsNothing_tryCatch ?_ fun _ => ?_
  · refine sendsNothing_bind (sendsNothing_createElement _) fun _ => ?_
    refine sendsNothing_bind (sendsNothing_eval _) fun _ => ?_
    refine sendsNothing_bind (sendsNothing_run fun _ => rfl) fun _ => ?_
    refine sendsNothing_bind (sendsNothing_run fun _ => rfl) fun _ => ?_
    split
    · exact sendsNothing_highlightAllUnder _ _
    · exact sendsNothing_pure _
  · refine sendsNothing_bind (sendsNothing_run fun _ => rfl) fun _ => ?_
    refine sendsNothing_bind (sendsNothing_createElement _) fun _ => ?_
    exact sendsNothing_run fun _ => rfl

theorem sendsNothing_appendItems (items : List JsVal) (ul : Element) :
    SendsNothing (appendItems items ul) := by
  induction items generalizing ul with
  | nil => exact sendsNothing_pure _
  | cons doc rest ih =>
    unfold appendItems
    exact sendsNothing_bind (sendsNothing_createElement _) fun _ => ih _

theorem sendsNothing_displayDocuments (documents : JsVal) :
    SendsNothing (displayDocuments documents) := by
  unfold displayDocuments
  refine sendsNothing_bind (sendsNothing_run fun _ => rfl) fun _ => ?_
  refine sendsNothing_bind (sendsNothing_eval _) fun _ => ?_
  refine sendsNothing_bind ?_ fun _ => sendsNothing_run fun _ => rfl
  split
  · refine sendsNothing_bind (sendsNothing_createElement _) fun _ => ?_
    exact sendsNothing_run fun _ => rfl
  · refine sendsNothing_bind (sendsNothing_createElement _) fun _ => ?_
    refine sendsNothing_bind ?_ fun _ => sendsNothing_run fun _ => rfl
    split
    · exact sendsNothing_appendItems _ _
    · exact sendsNothing_throw _

theorem sendsNothing_databaseThen (done failed : String) (data : JsVal) :
    SendsNothing (databaseThen done failed data) := by
  unfold databaseThen
  refine sendsNothing_bind (sendsNothing_eval _) fun _ => ?_
  split
  · exact sendsNothing_bind (sendsNothing_run fun _ => rfl) fun _ => sendsNothing_run fun _ => rfl
  · refine sendsNothing_bind (sendsNothing_eval _) fun _ => ?_
    exact sendsNothing_bind (sendsNothing_run fun _ => rfl) fun _ => sendsNothing_run fun _ => rfl

theorem sendsNothing_databaseCatch (logged shown : String) (error : JsError) :
    SendsNothing (databaseCatch logged shown error) := by
  unfold databaseCatch
  exact sendsNothing_bind (sendsNothing_run fun _ => rfl) fun _ => sendsNothing_run fun _ => rfl

theorem sendsNothing_listDocumentsThen (data : JsVal) :
    SendsNothing (listDocumentsThen data) := by
  unfold listDocumentsThen
  refine sendsNothing_bind (sendsNothing_eval _) fun _ => ?_
  split
  · refine sendsNothing_bind (sendsNothing_eval _) fun _ => ?_
    refine sendsNothing_bind (sendsNothing_eval _) fun _ => ?_
    exact sendsNothing_bind (sendsNothing_run fun _ => rfl) fun _ =>
      sendsNothing_displayDocuments _
  · refine sendsNothing_bind (sendsNothing_eval _) fun _ => ?_
    exact sendsNothing_bind (sendsNothing_run fun _ => rfl) fun _ => sendsNothing_run fun _ => rfl

theorem sendsNothing_listDocumentsCatch (error : JsError) :
    SendsNothing (listDocumentsCatch error) := by
  unfold listDocumentsCatch
  exact sendsNothing_bind (sendsNothing_run fun _ => rfl) fun _ => sendsNothing_run fun _ => rfl

theorem sendsNothing_askThen (env : Env) (loadingElement : Nat) (data : JsVal) :
    SendsNothing (askThen env loadingElement data) := by
  unfold askThen
  refine sendsNothing_bind (sendsNothing_removeChat _) fun _ => ?_
  refine sendsNothing_bind (sendsNothing_eval _) fun _ => ?_
  split
  · refine sendsNothing_bind (sendsNothing_run fun _ => rfl) fun _ => ?_
    exact sendsNothing_bind (sendsNothing_eval _) fun _ => sendsNothing_displayResponse _ _
  · refine sendsNothing_bind (sendsNothing_eval _) fun _ => ?_
    refine sendsNothing_bind (sendsNothing_run fun _ => rfl) fun _ => ?_
    refine sendsNothing_bind (sendsNothing_run fun _ => rfl) fun _ => ?_
    refine sendsNothing_bind (sendsNothing_createElement _) fun _ => ?_
    exact sendsNothing_bind (sendsNothing_run fun _ => rfl) fun _ => sendsNothing_run fun _ => rfl

/-- The page after the `.catch` handler of `askQuestion`. -/
theorem askCatch_apply (lid : Nat) (e : JsError) (q : Page) :
    askCatch lid e q = .normal ()
      { q with
        nextId := q.nextId + 1
        chatMessages := q.chatMessages.filter (fun e => e.id != lid) ++
          [⟨q.nextId, "div", "assistant-message error",
            [.text "Hiba történt a kérdés feldolgozása közben"]⟩]
        chatScrolls := q.chatScrolls + 1
        message := ⟨"Hiba történt a kérdés feldolgozása közben", "alert alert-danger", "block"⟩
        timers := q.timers ++ [q.now + 5000]
        console := q.console ++
          [⟨q.now, "error", "Hiba a kérdés feldolgozása közben: " ++ e.toStr⟩] } := by
  by_cases hc : chatContains lid q = true
  · simp [askCatch, hc, removeChat_apply, log, showMessage, appendChat, scrollChatToEnd,
      Element.setTextContent]
  · simp only [Bool.not_eq_true] at hc
    have hf := filter_of_not_contains lid q.chatMessages hc
    simp [askCatch, hc, removeChat_apply, log, showMessage, appendChat, scrollChatToEnd,
      Element.setTextContent, hf]

theorem sendsNothing_askCatch (loadingElement : Nat) (error : JsError) :
    SendsNothing (askCatch loadingElement error) := by
  intro p
  rw [askCatch_apply]
  rfl

/-! ## Failed exchanges -/

/-- The handlers shared by the three database operations report a failure. -/
theorem databaseSettled_failure (done failed logged shown : String) (o : Outcome) (q : Page)
    (h : o.isSuccess = false) :
    FailureReported q
      (promiseChain (databaseThen done failed) (databaseCatch logged shown) o q) := by
  cases o with
  | rejected e =>
    simp [FailureReported, promiseChain, databaseCatch, log, showMessage, Completion.page,
      Completion.threw]
  | parsed d =>
    simp only [Outcome.isSuccess] at h
    cases hs : getProp d "status" with
    | error e =>
      simp [FailureReported, promiseChain, databaseCatch, databaseThen, hs, log, showMessage,
        Completion.page, Completion.threw]
    | ok v =>
      obtain ⟨w, hw⟩ := getProp_ok_of_ok hs "message"
      simp only [hs] at h
      simp [FailureReported, promiseChain, databaseCatch, databaseThen, hs, hw, h, log,
        showMessage, Completion.page, Completion.threw]

/-- The handlers of `listDocuments` report a failure. -/
theorem listDocumentsSettled_failure (o : Outcome) (q : Page) (h : o.isSuccess = false) :
    FailureReported q (listDocumentsSettled o q) := by
  cases o with
  | rejected e =>
    simp [FailureReported, listDocumentsSettled, promiseChain, listDocumentsCatch, log,
      showMessage, Completion.page, Completion.threw]
  | parsed d =>
    simp only [Outcome.isSuccess] at h
    cases hs : getProp d "status" with
    | error e =>
      simp [FailureReported, listDocumentsSettled, promiseChain, listDocumentsCatch,
        listDocumentsThen, hs, log, showMessage, Completion.page, Completion.threw]
    | ok v =>
      obtain ⟨w, hw⟩ := getProp_ok_of_ok hs "message"
      simp only [hs] at h
      simp [FailureReported, listDocumentsSettled, promiseChain, listDocumentsCatch,
        listDocumentsThen, hs, hw, h, log, showMessage, Completion.page, Completion.threw]

/-- The handlers of `askQuestion` report a failure and leave one error entry
in place of the loading indicator. -/
theorem askQuestionSettled_failure (env : Env) (lid : Nat) (o : Outcome) (q : Page)
    (h : o.isSuccess = false) :
    FailureReported q (askQuestionSettled env lid o q) ∧
    ∃ text, (askQuestionSettled env lid o q).page.chatMessages =
      q.chatMessages.filter (fun e => e.id != lid) ++
        [⟨q.nextId, "div", "assistant-message error", [.text text]⟩] := by
  cases o with
  | rejected e =>
    simp [FailureReported, askQuestionSettled, promiseChain, askCatch_apply, Completion.page,
      Completion.threw]
  | parsed d =>
    simp only [Outcome.isSuccess] at h
    by_cases hc : chatContains lid q = true
    · cases hs : getProp d "status" with
      | error e =>
        simp [FailureReported, askQuestionSettled, promiseChain, askThen, removeChat_apply, hc, hs,
          askCatch_apply, Completion.page, Completion.threw, filter_filter_id]
      | ok v =>
        obtain ⟨w, hw⟩ := getProp_ok_of_ok hs "message"
        simp only [hs] at h
        have hne := append_ne_empty "Hiba történt a kérdés feldolgozása közben: " w.toStr
          (by decide)
        simp [FailureReported, askQuestionSettled, promiseChain, askThen, removeChat_apply, hc, hs,
          hw, h, hne, log, showMessage, appendChat, scrollChatToEnd, Element.setTextContent,
          Completion.page, Completion.threw]
    · simp only [Bool.not_eq_true] at hc
      simp [FailureReported, askQuestionSettled, promiseChain, askThen, removeChat_apply, hc,
          askCatch_apply, Completion.page, Completion.threw]

/-! ## The claims -/

/-- Claim C1.  When the trimmed value of the input box is empty, `askQuestion`
returns without a pending exchange, has not called `fetch`, has appended
nothing to the chat log, and has shown the banner with type `danger`. -/
theorem askQuestion_blank_sends_nothing (p : Page) (h : jsTrim p.userInput = "") :
    (askQuestion p).2 = none ∧
    (askQuestion p).1.requests = p.requests ∧
    (askQuestion p).1.chatMessages = p.chatMessages ∧
    (askQuestion p).1.message =
      ⟨"Kérjük, írjon be egy kérdést!", "alert alert-danger", "block"⟩ := by
  simp [askQuestion, h, showMessage, log]

/-- Claim C1 at a whitespace-only input. -/
theorem askQuestion_blank_sends_nothing_witness :
    jsTrim ({ initialPage with userInput := " \t\n " } : Page).userInput = "" ∧
    (askQuestion { initialPage with userInput := " \t\n " }).2 = none ∧
    (askQuestion { initialPage with userInput := " \t\n " }).1.requests = [] ∧
    (askQuestion { initialPage with userInput := " \t\n " }).1.chatMessages = [] ∧
    (askQuestion { initialPage with userInput := " \t\n " }).1.message =
      ⟨"Kérjük, írjon be egy kérdést!", "alert alert-danger", "block"⟩ :=
  ⟨by decide, askQuestion_blank_sends_nothing { initialPage with userInput := " \t\n " }
    (by decide)⟩

/-- Claim C3.  After the handlers of a failed `/ask` exchange have run (a
rejection, or a parsed body whose status is not `success`), the loading
indicator is not in the chat log, and the chat log is what it was without the
loading indicator followed by exactly one new element of class
`assistant-message error`. -/
theorem ask_failure_one_error_message (env : Env) (loadingElement : Nat) (o : Outcome)
    (q : Page) (h : o.isSuccess = false) (hl : loadingElement < q.nextId) :
    chatContains loadingElement (askQuestionSettled env loadingElement o q).page = false ∧
    ∃ text, (askQuestionSettled env loadingElement o q).page.chatMessages =
      q.chatMessages.filter (fun e => e.id != loadingElement) ++
        [⟨q.nextId, "div", "assistant-message error", [.text text]⟩] := by
  obtain ⟨text, ht⟩ := (askQuestionSettled_failure env loadingElement o q h).2
  refine ⟨?_, text, ht⟩
  have hne : (q.nextId == loadingElement) = false := by
    simpa using (Nat.ne_of_gt hl)
  simp only [chatContains, ht, List.any_append, chatContains_filter, List.any_cons, hne,
    List.any_nil, Bool.or_self]

/-- Claim C3 for a rejected request and a pending question. -/
theorem ask_failure_one_error_message_witness :
    (Outcome.rejected ⟨"TypeError", "Failed to fetch"⟩).isSuccess = false ∧
    1 < pendingPage.nextId ∧
    chatContains 1 (askQuestionSettled noLibraries 1
      (.rejected ⟨"TypeError", "Failed to fetch"⟩) pendingPage).page = false ∧
    ∃ text, (askQuestionSettled noLibraries 1
      (.rejected ⟨"TypeError", "Failed to fetch"⟩) pendingPage).page.chatMessages =
      pendingPage.chatMessages.filter (fun e => e.id != 1) ++
        [⟨pendingPage.nextId, "div", "assistant-message error", [.text text]⟩] :=
  ⟨rfl, by decide, ask_failure_one_error_message noLibraries 1
    (.rejected ⟨"TypeError", "Failed to fetch"⟩) pendingPage rfl (by decide)⟩

/-- Claim C4.  Whenever the exchange of one of the five operations fails (a
rejection, or a parsed body whose status is not `success`), its handlers call
`log` with level `error`, call `showMessage` with type `danger`, throw
nothing, and do not call `fetch` again. -/
theorem failures_reported_not_retried (env : Env) (loadingElement : Nat) (o : Outcome)
    (q : Page) (h : o.isSuccess = false) :
    FailureReported q (setupDatabaseSettled o q) ∧
    FailureReported q (deleteDatabaseSettled o q) ∧
    FailureReported q (updateDatabaseSettled o q) ∧
    FailureReported q (listDocumentsSettled o q) ∧
    FailureReported q (askQuestionSettled env loadingElement o q) :=
  ⟨databaseSettled_failure _ _ _ _ o q h, databaseSettled_failure _ _ _ _ o q h,
    databaseSettled_failure _ _ _ _ o q h, listDocumentsSettled_failure o q h,
    (askQuestionSettled_failure env loadingElement o q h).1⟩

/-- Claim C4 for a failure response of the backend. -/
theorem failures_reported_not_retried_witness :
    errorReply.isSuccess = false ∧
    FailureReported pendingPage (setupDatabaseSettled errorReply pendingPage) ∧
    FailureReported pendingPage (deleteDatabaseSettled errorReply pendingPage) ∧
    FailureReported pendingPage (updateDatabaseSettled errorReply pendingPage) ∧
    FailureReported pendingPage (listDocumentsSettled errorReply pendingPage) ∧
    FailureReported pendingPage (askQuestionSettled noLibraries 1 errorReply pendingPage) :=
  ⟨by decide, failures_reported_not_retried noLibraries 1 errorReply pendingPage (by decide)⟩

/-- Claim C8.  Each operation calls `fetch` exactly once, with the request of
the endpoint table: `setupDatabase`, `deleteDatabase` and `updateDatabase` a
POST to their endpoint with the JSON text of the empty object as body,
`listDocuments` a GET to `/list-documents` without a body, and `askQuestion`,
when the trimmed input is not empty, a POST to `/ask` whose body is the JSON
encoding of the object with the one property `question` holding the trimmed
input.  The promise handlers of the five operations call `fetch` for no
outcome, so the request stays the only one. -/
theorem one_request_per_action (env : Env) (loadingElement : Nat) (o : Outcome) (p : Page) :
    (setupDatabase p).requests = p.requests ++
      [⟨"/setup-database", "POST", [("Content-Type", "application/json")], some "\x7b\x7d"⟩] ∧
    (deleteDatabase p).requests = p.requests ++
      [⟨"/delete-database", "POST", [("Content-Type", "application/json")], some "\x7b\x7d"⟩] ∧
    (updateDatabase p).requests = p.requests ++
      [⟨"/update-database", "POST", [("Content-Type", "application/json")], some "\x7b\x7d"⟩] ∧
    (listDocuments p).requests = p.requests ++ [⟨"/list-documents", "GET", [], none⟩] ∧
    (jsTrim p.userInput ≠ "" →
      (askQuestion p).1.requests = p.requests ++
        [⟨"/ask", "POST", [("Content-Type", "application/json")],
          some ("\x7b\"question\":" ++ jsonQuote (jsTrim p.userInput) ++ "\x7d")⟩]) ∧
    (setupDatabaseSettled o p).page.requests = p.requests ∧
    (deleteDatabaseSettled o p).page.requests = p.requests ∧
    (updateDatabaseSettled o p).page.requests = p.requests ∧
    (listDocumentsSettled o p).page.requests = p.requests ∧
    (askQuestionSettled env loadingElement o p).page.requests = p.requests := by
  have hempty : jsonStringify [] = "\x7b\x7d" := by decide
  refine ⟨?_, ?_, ?_, ?_, ?_, ?_, ?_, ?_, ?_, ?_⟩
  · simp [setupDatabase, fetch, log, postJson, hempty]
  · simp [deleteDatabase, fetch, log, postJson, hempty]
  · simp [updateDatabase, fetch, log, postJson, hempty]
  · simp [listDocuments, fetch, log, getRequest]
  · intro h
    have hq : jsonStringify [("question", jsTrim p.userInput)] =
        "\x7b\"question\":" ++ jsonQuote (jsTrim p.userInput) ++ "\x7d" := by
      have hk : jsonQuote "question" = "\"question\"" := by decide
      simp only [jsonStringify, List.map, hk, String.intercalate, String.intercalate.go]
      apply String.ext
      simp only [String.data_append]
      rfl
    simp [askQuestion, h, fetch, log, postJson, appendChat, scrollChatToEnd, hq]
  · exact sendsNothing_promiseChain (sendsNothing_databaseThen _ _)
      (sendsNothing_databaseCatch _ _) o p
  · exact sendsNothing_promiseChain (sendsNothing_databaseThen _ _)
      (sendsNothing_databaseCatch _ _) o p
  · exact sendsNothing_promiseChain (sendsNothing_databaseThen _ _)
      (sendsNothing_databaseCatch _ _) o p
  · exact sendsNothing_promiseChain sendsNothing_listDocumentsThen
      sendsNothing_listDocumentsCatch o p
  · exact sendsNothing_promiseChain (sendsNothing_askThen env loadingElement)
      (sendsNothing_askCatch loadingElement) o p

/-- Claim C8 at an input whose trimmed value is `hi`. -/
theorem one_request_per_action_witness :
    jsTrim ({ initialPage with userInput := " hi " } : Page).userInput ≠ "" ∧
    (askQuestion { initialPage with userInput := " hi " }).1.requests =
      [⟨"/ask", "POST", [("Content-Type", "application/json")],
        some ("\x7b\"question\":" ++ jsonQuote "hi" ++ "\x7d")⟩] :=
  ⟨by decide, (one_request_per_action noLibraries 1 errorReply
    { initialPage with userInput := " hi " }).2.2.2.2.1 (by decide)⟩

/-- Claim C5.  When `/list-documents` answers with status `success` and an
empty `documents` array, the handlers of `listDocuments` throw nothing and
leave in the document list the heading followed by exactly one paragraph with
the text `Nem található dokumentum az adatbázisban.`, without a list element,
and the document list is displayed (`block`); this is what `displayDocuments`
does with the empty array on every page. -/
theorem empty_document_list_notice (data : JsVal) (q : Page)
    (hs : getProp data "status" = .ok (.str "success"))
    (hd : getProp data "documents" = .ok (.arr [])) :
    (listDocumentsSettled (.parsed data) q).threw = false ∧
    (listDocumentsSettled (.parsed data) q).page.documentList =
      [.markup "<h5>Talált dokumentumok:</h5>",
        .element "p" "" [.text "Nem található dokumentum az adatbázisban."]] ∧
    (listDocumentsSettled (.parsed data) q).page.documentListDisplay = "block" ∧
    (displayDocuments (.arr []) q).page.documentList =
      [.markup "<h5>Talált dokumentumok:</h5>",
        .element "p" "" [.text "Nem található dokumentum az adatbázisban."]] ∧
    (displayDocuments (.arr []) q).page.documentListDisplay = "block" := by
  have hl : getProp (.arr []) "length" = .ok (.num 0) := rfl
  simp [listDocumentsSettled, promiseChain, listDocumentsThen, hs, hd, hl, JsVal.isString,
    displayDocuments, JsVal.isNumber, log, Element.setTextContent, Element.toNode,
    Completion.page, Completion.threw]

/-- Claim C5 at a concrete response. -/
theorem empty_document_list_notice_witness :
    getProp (.obj [("status", .str "success"), ("documents", .arr [])]) "status" =
      .ok (.str "success") ∧
    getProp (.obj [("status", .str "success"), ("documents", .arr [])]) "documents" =
      .ok (.arr []) ∧
    (listDocumentsSettled (.parsed (.obj [("status", .str "success"), ("documents", .arr [])]))
      initialPage).threw = false ∧
    (listDocumentsSettled (.parsed (.obj [("status", .str "success"), ("documents", .arr [])]))
      initialPage).page.documentList =
      [.markup "<h5>Talált dokumentumok:</h5>",
        .element "p" "" [.text "Nem található dokumentum az adatbázisban."]] ∧
    (listDocumentsSettled (.parsed (.obj [("status", .str "success"), ("documents", .arr [])]))
      initialPage).page.documentListDisplay = "block" ∧
    (displayDocuments (.arr []) initialPage).page.documentList =
      [.markup "<h5>Talált dokumentumok:</h5>",
        .element "p" "" [.text "Nem található dokumentum az adatbázisban."]] ∧
    (displayDocuments (.arr []) initialPage).page.documentListDisplay = "block" :=
  ⟨rfl, rfl, empty_document_list_notice _ initialPage rfl rfl⟩

/-- Claim C6 does not hold as stated.  The banner of a `showMessage` call made
3000 ms after an earlier call is set to `none` 2000 ms after it was shown,
by the timer of the earlier call, and not 5000 ms after it was shown. -/
theorem banner_hidden_before_its_delay :
    (elapse 3000 (showMessage "első" "danger" initialPage)).now = 3000 ∧
    (elapse 2000 (showMessage "második" "success"
      (elapse 3000 (showMessage "első" "danger" initialPage)))).now = 5000 ∧
    (elapse 2000 (showMessage "második" "success"
      (elapse 3000 (showMessage "első" "danger" initialPage)))).message =
      ⟨"második", "alert alert-success", "none"⟩ :=
  ⟨rfl, rfl, rfl⟩

/-- Claim C6, amended.  A call of `showMessage` sets the banner to its text and
class with display `block`.  When `dt` ms pass without another call, the
banner is still `block` exactly when `dt` is below 5000 and no hide scheduled
by an earlier call has come due; otherwise it has been set to `none`.  In
particular it is `none` from 5000 ms after the call on, and with no earlier
hide pending it is `block` during the whole 5000 ms. -/
theorem banner_display_after_showMessage (message type : String) (p : Page) (dt : Nat) :
    (showMessage message type p).message = ⟨message, "alert alert-" ++ type, "block"⟩ ∧
    (elapse dt (showMessage message type p)).message =
      ⟨message, "alert alert-" ++ type,
        if dt < 5000 ∧ ∀ due ∈ p.timers, p.now + dt < due then "block" else "none"⟩ := by
  refine ⟨rfl, ?_⟩
  simp only [elapse, showMessage, List.any_append, List.any_cons, List.any_nil, Bool.or_false]
  by_cases h1 : dt < 5000
  · have h5 : decide (p.now + 5000 ≤ p.now + dt) = false := by
      simp only [decide_eq_false_iff_not]
      omega
    by_cases h2 : ∀ due ∈ p.timers, p.now + dt < due
    · have hany : p.timers.any (fun due => decide (due ≤ p.now + dt)) = false := by
        rw [List.any_eq_false]
        intro due hdue
        simpa using h2 due hdue
      have hc : dt < 5000 ∧ ∀ due ∈ p.timers, p.now + dt < due := ⟨h1, h2⟩
      rw [hany, h5, if_neg (by decide), if_pos hc]
    · have hany : p.timers.any (fun due => decide (due ≤ p.now + dt)) = true := by
        rw [List.any_eq_true]
        push_neg at h2
        obtain ⟨due, hdue, hle⟩ := h2
        exact ⟨due, hdue, by simpa using hle⟩
      have hc : ¬ (dt < 5000 ∧ ∀ due ∈ p.timers, p.now + dt < due) := fun h => h2 h.2
      rw [hany, Bool.true_or, if_pos rfl, if_neg hc]
  · have h5 : decide (p.now + 5000 ≤ p.now + dt) = true := by
      simp only [decide_eq_true_eq]
      omega
    have hc : ¬ (dt < 5000 ∧ ∀ due ∈ p.timers, p.now + dt < due) := fun h => h1 h.1
    rw [h5, Bool.or_true, if_pos rfl, if_neg hc]

/-- A global replace whose expression matches nowhere returns its input. -/
theorem replaceAllAux_of_no_match (matchAt : List Char → Option (List Char × List Char))
    (P : Char → Prop) (hP : ∀ s : List Char, (∀ c ∈ s, P c) → matchAt s = none) :
    ∀ (fuel : Nat) (s : List Char), (∀ c ∈ s, P c) → replaceAllAux matchAt fuel s = s := by
  intro fuel
  induction fuel with
  | zero => intro s _; rfl
  | succ n ih =>
    intro s hs
    cases s with
    | nil => rfl
    | cons c cs =>
      have hcs : ∀ d ∈ cs, P d := fun d hd => hs d (List.mem_cons_of_mem c hd)
      simp only [replaceAllAux, hP (c :: cs) hs, ih cs hcs]

theorem matchCodeBlock_none (s : List Char) (h : ∀ c ∈ s, c ≠ backtick ∧ c ≠ lineFeed) :
    matchCodeBlock s = none := by
  cases s with
  | nil => rfl
  | cons c cs =>
    have hc : c ≠ backtick := (h c (List.mem_cons_self c cs)).1
    have : (backtick == c) = false := by simpa using fun heq => hc heq.symm
    simp [matchCodeBlock, fence, List.isPrefixOf, this]

theorem matchInlineCode_none (s : List Char) (h : ∀ c ∈ s, c ≠ backtick ∧ c ≠ lineFeed) :
    matchInlineCode s = none := by
  cases s with
  | nil => rfl
  | cons c cs =>
    have hc : c ≠ backtick := (h c (List.mem_cons_self c cs)).1
    simp [matchInlineCode, hc]

theorem matchBlankLine_none (s : List Char) (h : ∀ c ∈ s, c ≠ backtick ∧ c ≠ lineFeed) :
    matchBlankLine s = none := by
  match s with
  | [] => rfl
  | [_] => rfl
  | a :: b :: rest =>
    have ha : a ≠ lineFeed := (h a (List.mem_cons_self a _)).2
    simp [matchBlankLine, ha]

theorem matchLineFeed_none (s : List Char) (h : ∀ c ∈ s, c ≠ backtick ∧ c ≠ lineFeed) :
    matchLineFeed s = none := by
  cases s with
  | nil => rfl
  | cons c cs =>
    have hc : c ≠ lineFeed := (h c (List.mem_cons_self c cs)).2
    simp [matchLineFeed, hc]

/-- Text without backticks and line feeds is only wrapped in a paragraph. -/
theorem formatText_plain (text : String) (h : ∀ c ∈ text.data, c ≠ backtick ∧ c ≠ lineFeed) :
    formatText text = "<p>" ++ text ++ "</p>" := by
  simp only [formatText, replaceAll]
  rw [replaceAllAux_of_no_match _ _ matchCodeBlock_none _ _ h,
    replaceAllAux_of_no_match _ _ matchInlineCode_none _ _ h,
    replaceAllAux_of_no_match _ _ matchBlankLine_none _ _ h,
    replaceAllAux_of_no_match _ _ matchLineFeed_none _ _ h]

/-- The result of `formatText` is never the empty string. -/
theorem formatText_ne_empty (text : String) : formatText text ≠ "" := by
  simp only [formatText]
  exact append_ne_empty _ _ (append_ne_empty _ _ (by decide))

/-- Without the markdown renderer and without the highlighter, `displayResponse`
appends one assistant message whose markup is `formatText(response)`. -/
theorem displayResponse_plain (env : Env) (response : String) (q : Page)
    (hm : env.markdownit = none) (hp : env.Prism = none) :
    (displayResponse env (.str response) q).page.chatMessages =
      q.chatMessages ++
        [⟨q.nextId, "div", "assistant-message", [.markup (formatText response)]⟩] := by
  simp [displayResponse, getProp, markdownToHtml, formatTextOf, hm, hp, log, appendChat,
    scrollChatToEnd, Element.setInnerHTML, formatText_ne_empty, Completion.page]

/-- Rewriting the element of a fresh identity leaves the older children alone. -/
theorem map_fresh (id : Nat) (f : Element → Element) (l : List Element)
    (h : ∀ e ∈ l, e.id ≠ id) : l.map (fun e => if e.id = id then f e else e) = l := by
  induction l with
  | nil => rfl
  | cons e l ih =>
    have he : e.id ≠ id := h e (List.mem_cons_self e l)
    have hl : ∀ x ∈ l, x.id ≠ id := fun x hx => h x (List.mem_cons_of_mem e hx)
    simp [he, ih hl]

theorem find_fresh (id : Nat) (l : List Element) (e0 : Element) (h0 : e0.id = id)
    (h : ∀ e ∈ l, e.id ≠ id) : (l ++ [e0]).find? (fun e => e.id == id) = some e0 := by
  induction l with
  | nil => simp [h0]
  | cons e l ih =>
    have he : e.id ≠ id := h e (List.mem_cons_self e l)
    have hl : ∀ x ∈ l, x.id ≠ id := fun x hx => h x (List.mem_cons_of_mem e hx)
    have : (e.id == id) = false := by simpa using he
    simp only [List.cons_append, List.find?, this]
    exact ih hl

/-- Without the markdown renderer and with the highlighter, the assistant
message receives the markup `formatText(response)`, which the highlighter then
rewrites. -/
theorem displayResponse_highlighted (env : Env) (prism : PrismLib) (response : String)
    (q : Page) (hm : env.markdownit = none) (hp : env.Prism = some prism)
    (hfresh : ∀ e ∈ q.chatMessages, e.id ≠ q.nextId) :
    ∃ rest, (displayResponse env (.str response) q).page.chatMessages =
      q.chatMessages ++
        ⟨q.nextId, "div", "assistant-message",
          (prism.highlightAllUnder [.markup (formatText response)]).1⟩ :: rest := by
  have hfind := find_fresh q.nextId q.chatMessages
    ⟨q.nextId, "div", "assistant-message", [.markup (formatText response)]⟩ rfl hfresh
  have hmap := map_fresh q.nextId
    (fun e => { e with children := (prism.highlightAllUnder e.children).1 }) q.chatMessages hfresh
  cases hthrow : (prism.highlightAllUnder [.markup (formatText response)]).2 with
  | none =>
    refine ⟨[], ?_⟩
    simp [displayResponse, getProp, markdownToHtml, formatTextOf, hm, hp, log, appendChat,
      scrollChatToEnd, Element.setInnerHTML, formatText_ne_empty, Completion.page,
      highlightAllUnder, hfind, hmap, hthrow]
  | some error =>
    refine ⟨[⟨q.nextId + 1, "div", "assistant-message",
      if response = "" then [] else [.text response]⟩], ?_⟩
    simp [displayResponse, getProp, markdownToHtml, formatTextOf, hm, hp, log, appendChat,
      scrollChatToEnd, Element.setInnerHTML, formatText_ne_empty, Completion.page,
      highlightAllUnder, hfind, hmap, hthrow, Element.setTextContent, textContentOf, JsVal.toStr]

/-- Claim C7.  When the markdown renderer is absent, `markdownToHtml` returns
`formatText` of its argument for every string, with or without the syntax
highlighter, and this is the markup that `displayResponse` assigns to the new
assistant message: without the highlighter the message holds exactly this
markup, with the highlighter it holds what `highlightAllUnder` makes of this
markup. -/
theorem markdownToHtml_falls_back_to_formatText (env : Env) (markdown : String) (q : Page)
    (hm : env.markdownit = none) :
    markdownToHtml env (.str markdown) = .ok (formatText markdown) ∧
    (env.Prism = none →
      (displayResponse env (.str markdown) q).page.chatMessages =
        q.chatMessages ++
          [⟨q.nextId, "div", "assistant-message", [.markup (formatText markdown)]⟩]) ∧
    (∀ prism, env.Prism = some prism → (∀ e ∈ q.chatMessages, e.id ≠ q.nextId) →
      ∃ rest, (displayResponse env (.str markdown) q).page.chatMessages =
        q.chatMessages ++
          ⟨q.nextId, "div", "assistant-message",
            (prism.highlightAllUnder [.markup (formatText markdown)]).1⟩ :: rest) := by
  refine ⟨?_, fun hp => displayResponse_plain env markdown q hm hp,
    fun prism hp hfresh => displayResponse_highlighted env prism markdown q hm hp hfresh⟩
  simp [markdownToHtml, hm, formatTextOf]

/-- Claim C7 at a response of two paragraphs. -/
theorem markdownToHtml_falls_back_to_formatText_witness :
    noLibraries.markdownit = none ∧
    markdownToHtml noLibraries (.str "a\n\nb") = .ok (formatText "a\n\nb") ∧
    formatText "a\n\nb" = "<p>a</p><p>b</p>" :=
  ⟨rfl, (markdownToHtml_falls_back_to_formatText noLibraries "a\n\nb" initialPage rfl).1,
    by decide⟩

/-- Claim C10.  For a text without backtick and without line feed,
`formatText` returns the text between `<p>` and `</p>`, unescaped.  When the
markdown renderer is absent, `displayResponse` assigns exactly this string as
the markup of the new assistant message: without the highlighter the message
holds this markup, with the highlighter it holds what `highlightAllUnder`
makes of this markup. -/
theorem formatText_does_not_escape (text : String)
    (h : ∀ c ∈ text.data, c ≠ backtick ∧ c ≠ lineFeed) :
    formatText text = "<p>" ++ text ++ "</p>" ∧
    (∀ (env : Env) (q : Page), env.markdownit = none → env.Prism = none →
      (displayResponse env (.str text) q).page.chatMessages =
        q.chatMessages ++
          [⟨q.nextId, "div", "assistant-message", [.markup ("<p>" ++ text ++ "</p>")]⟩]) ∧
    (∀ (env : Env) (prism : PrismLib) (q : Page), env.markdownit = none →
      env.Prism = some prism → (∀ e ∈ q.chatMessages, e.id ≠ q.nextId) →
      ∃ rest, (displayResponse env (.str text) q).page.chatMessages =
        q.chatMessages ++
          ⟨q.nextId, "div", "assistant-message",
            (prism.highlightAllUnder [.markup ("<p>" ++ text ++ "</p>")]).1⟩ :: rest) := by
  refine ⟨formatText_plain text h, fun env q hm hp => ?_, fun env prism q hm hp hfresh => ?_⟩
  · rw [displayResponse_plain env text q hm hp, formatText_plain text h]
  · rw [← formatText_plain text h]
    exact displayResponse_highlighted env prism text q hm hp hfresh

/-- Claim C10 at a response that carries an `img` element with an event
handler. -/
theorem formatText_does_not_escape_witness :
    (∀ c ∈ "<img src=x onerror=alert(1)>".data, c ≠ backtick ∧ c ≠ lineFeed) ∧
    formatText "<img src=x onerror=alert(1)>" = "<p><img src=x onerror=alert(1)></p>" ∧
    (displayResponse noLibraries (.str "<img src=x onerror=alert(1)>")
      initialPage).page.chatMessages =
      [⟨0, "div", "assistant-message", [.markup "<p><img src=x onerror=alert(1)></p>"]⟩] :=
  ⟨by decide, (formatText_does_not_escape "<img src=x onerror=alert(1)>" (by decide)).1,
    (formatText_does_not_escape "<img src=x onerror=alert(1)>" (by decide)).2.1
      noLibraries initialPage rfl rfl⟩

/-- Without the highlighter the `highlight` option throws for every fenced
block that names a language. -/
theorem highlightCallback_without_prism (env : Env) (str lang : String)
    (hp : env.Prism = none) (hl : lang ≠ "") :
    highlightCallback env str lang = .error (referenceError "Prism") := by
  simp [highlightCallback, hp, hl]

/-- Claim C2 fails on the code.  With a `Prism` whose `highlightAllUnder`
throws, a successful `/ask` response leaves two new elements of class
`assistant-message` in the chat log: the rendered answer, appended before the
call of `highlightAllUnder`, and the plain-text fallback of the `catch`
branch. -/
theorem throwing_highlighter_duplicates_answer :
    (askQuestionSettled ⟨none, some brokenPrism⟩ 1
      (.parsed (.obj [("status", .str "success"), ("response", .str "ok")]))
      pendingPage).page.chatMessages =
      [⟨0, "div", "user-message", [.text "hi"]⟩,
        ⟨2, "div", "assistant-message", [.markup "<p>ok</p>"]⟩,
        ⟨3, "div", "assistant-message", [.text "ok"]⟩] := by
  rfl

/-- Claim C9 fails on the code.  Without `Prism` the `highlight` option throws a
`ReferenceError` for a block tagged `js` instead of returning the empty
string; the exception leaves the renderer, `displayResponse` enters its
`catch` branch, logs at level `error`, and shows the response as plain
text. -/
theorem highlight_callback_throws_without_prism :
    highlightCallback ⟨some fenceRenderer, none⟩ "x = 1\n" "js" =
      .error (referenceError "Prism") ∧
    (displayResponse ⟨some fenceRenderer, none⟩ (.str "```js\nx = 1\n```")
      initialPage).page.console =
      [⟨0, "info", "Válasz megjelenítése (15 karakter)"⟩,
        ⟨0, "error",
          "Hiba a válasz megjelenítése közben: ReferenceError: Prism is not defined"⟩] ∧
    (displayResponse ⟨some fenceRenderer, none⟩ (.str "```js\nx = 1\n```")
      initialPage).page.chatMessages =
      [⟨1, "div", "assistant-message", [.text "```js\nx = 1\n```"]⟩] :=
  ⟨rfl, rfl, rfl⟩

theorem fresh_filter (lid : Nat) (q : Page) (hfresh : ∀ e ∈ q.chatMessages, e.id ≠ q.nextId) :
    ∀ e ∈ q.chatMessages.filter (fun e => e.id != lid), e.id ≠ q.nextId :=
  fun e he => hfresh e (List.mem_filter.mp he).1

/-- Outside the defect of claim C2: when `highlightAllUnder` does not throw,
a successful answer replaces the loading indicator by exactly one assistant
message, whatever the markdown renderer does. -/
theorem ask_success_one_answer (env : Env) (lid : Nat) (data : JsVal) (response : String)
    (q : Page) (hs : getProp data "status" = .ok (.str "success"))
    (hr : getProp data "response" = .ok (.str response))
    (hc : chatContains lid q = true)
    (hfresh : ∀ e ∈ q.chatMessages, e.id ≠ q.nextId)
    (hprism : ∀ prism, env.Prism = some prism → ∀ kids, (prism.highlightAllUnder kids).2 = none) :
    (askQuestionSettled env lid (.parsed data) q).threw = false ∧
    ∃ id kids, (askQuestionSettled env lid (.parsed data) q).page.chatMessages =
      q.chatMessages.filter (fun e => e.id != lid) ++
        [⟨id, "div", "assistant-message", kids⟩] := by
  have hlen : getProp (.str response) "length" = .ok (.num (utf16Length response)) := rfl
  have hf := fresh_filter lid q hfresh
  cases hhtml : markdownToHtml env (.str response) with
  | error e =>
    refine ⟨?_, q.nextId + 1, if response = "" then [] else [.text response], ?_⟩ <;>
    simp [askQuestionSettled, promiseChain, askThen, removeChat_apply, hc, hs, hr, hlen,
      JsVal.isString, displayResponse, hhtml, log, appendChat, Completion.page, Completion.threw,
      Element.setTextContent, textContentOf, JsVal.toStr]
  | ok html =>
    cases hp : env.Prism with
    | none =>
      refine ⟨?_, q.nextId, if html = "" then [] else [.markup html], ?_⟩ <;>
      simp [askQuestionSettled, promiseChain, askThen, removeChat_apply, hc, hs, hr, hlen,
        JsVal.isString, displayResponse, hhtml, hp, log, appendChat, scrollChatToEnd,
        Completion.page, Completion.threw, Element.setInnerHTML]
    | some prism =>
      have hno := hprism prism hp
      have hfind := find_fresh q.nextId (q.chatMessages.filter (fun e => e.id != lid))
        ⟨q.nextId, "div", "assistant-message", if html = "" then [] else [.markup html]⟩ rfl hf
      have hmap := map_fresh q.nextId
        (fun e => { e with children := (prism.highlightAllUnder e.children).1 })
        (q.chatMessages.filter (fun e => e.id != lid)) hf
      refine ⟨?_, q.nextId,
        (prism.highlightAllUnder (if html = "" then [] else [.markup html])).1, ?_⟩ <;>
      simp [askQuestionSettled, promiseChain, askThen, removeChat_apply, hc, hs, hr, hlen,
        JsVal.isString, displayResponse, hhtml, hp, log, appendChat, scrollChatToEnd,
        Completion.page, Completion.threw, highlightAllUnder, hfind, hmap, hno,
        Element.setInnerHTML]

/-- With matches that are never empty, any fuel that covers the length of
the input gives the same result: the scan never stops for lack of fuel. -/
theorem replaceAllAux_fuel (matchAt : List Char → Option (List Char × List Char))
    (hm : Consumes matchAt) :
    ∀ (fuel1 fuel2 : Nat) (s : List Char), s.length ≤ fuel1 → s.length ≤ fuel2 →
      replaceAllAux matchAt fuel1 s = replaceAllAux matchAt fuel2 s := by
  intro fuel1
  induction fuel1 with
  | zero =>
    intro fuel2 s h1 _
    have hs : s = [] := List.length_eq_zero.mp (Nat.le_zero.mp h1)
    subst hs
    cases fuel2 <;> rfl
  | succ n ih =>
    intro fuel2 s h1 h2
    cases s with
    | nil => cases fuel2 <;> rfl
    | cons c cs =>
      cases fuel2 with
      | zero => simp at h2
      | succ k =>
        simp only [List.length_cons, Nat.add_le_add_iff_right] at h1 h2
        simp only [replaceAllAux]
        cases hmatch : matchAt (c :: cs) with
        | none => simp only [ih k cs h1 h2]
        | some r =>
          obtain ⟨replacement, rest⟩ := r
          have hlt := hm (c :: cs) replacement rest hmatch
          simp only [List.length_cons] at hlt
          simp only [ih k rest (by omega) (by omega)]

/-- More fuel than the length of the input does not change a global
replace. -/
theorem replaceAll_fuel (matchAt : List Char → Option (List Char × List Char))
    (hm : Consumes matchAt) (fuel : Nat) (s : List Char) (h : s.length ≤ fuel) :
    replaceAllAux matchAt fuel s = replaceAll matchAt s :=
  replaceAllAux_fuel matchAt hm fuel s.length s h (Nat.le_refl _)

theorem splitAtFence_length (s code rest : List Char) (h : splitAtFence s = some (code, rest)) :
    rest.length < s.length := by
  induction s generalizing code rest with
  | nil => simp [splitAtFence] at h
  | cons c cs ih =>
    simp only [splitAtFence] at h
    split at h
    · rename_i hpre
      simp only [Option.some.injEq, Prod.mk.injEq] at h
      rw [← h.2]
      simp only [List.length_drop, List.length_cons]
      omega
    · cases hcs : splitAtFence cs with
      | none => simp [hcs] at h
      | some r =>
        simp only [hcs, Option.map_some', Option.some.injEq, Prod.mk.injEq] at h
        have := ih r.1 r.2 (by simp [hcs])
        rw [← h.2]
        simp only [List.length_cons]
        omega

theorem consumes_matchCodeBlock : Consumes matchCodeBlock := by
  intro s replacement rest h
  simp only [matchCodeBlock] at h
  split at h
  · cases hsp : splitAtFence (s.drop 3) with
    | none => simp [hsp] at h
    | some r =>
      simp only [hsp, Option.map_some', Option.some.injEq, Prod.mk.injEq] at h
      have := splitAtFence_length (s.drop 3) r.1 r.2 (by simp [hsp])
      rw [← h.2]
      simp only [List.length_drop] at this
      omega
  · simp at h

theorem consumes_matchInlineCode : Consumes matchInlineCode := by
  intro s replacement rest h
  cases s with
  | nil => simp [matchInlineCode] at h
  | cons c cs =>
    simp only [matchInlineCode] at h
    split at h
    · split at h
      · rename_i d ds b after htake hdrop
        simp only [Option.some.injEq, Prod.mk.injEq] at h
        have hle : (cs.dropWhile (fun d => d ≠ backtick)).length ≤ cs.length :=
          (List.dropWhile_sublist _).length_le
        rw [hdrop] at hle
        rw [← h.2]
        simp only [List.length_cons] at hle ⊢
        omega
      · simp at h
    · simp at h

theorem consumes_matchBlankLine : Consumes matchBlankLine := by
  intro s replacement rest h
  match s with
  | [] => simp [matchBlankLine] at h
  | [_] => simp [matchBlankLine] at h
  | a :: b :: tail =>
    simp only [matchBlankLine] at h
    split at h
    · simp only [Option.some.injEq, Prod.mk.injEq] at h
      rw [← h.2]
      simp only [List.length_cons]
      omega
    · simp at h

theorem consumes_matchLineFeed : Consumes matchLineFeed := by
  intro s replacement rest h
  cases s with
  | nil => simp [matchLineFeed] at h
  | cons a tail =>
    simp only [matchLineFeed] at h
    split at h
    · simp only [Option.some.injEq, Prod.mk.injEq] at h
      rw [← h.2]
      simp
    · simp at h

/-- Letting time pass in two steps is letting it pass in one. -/
theorem elapse_elapse (a b : Nat) (p : Page) : elapse b (elapse a p) = elapse (a + b) p := by
  have hnow : p.now + a + b = p.now + (a + b) := Nat.add_assoc _ _ _
  have htimers : (p.timers.filter (fun due => decide (p.now + a < due))).filter
      (fun due => decide (p.now + (a + b) < due)) =
      p.timers.filter (fun due => decide (p.now + (a + b) < due)) := by
    rw [List.filter_filter]
    congr 1
    funext due
    by_cases h : p.now + (a + b) < due
    · have h1 : p.now + a < due := by omega
      simp [h, h1]
    · simp [h]
  have hany : ((p.timers.filter (fun due => decide (p.now + a < due))).any
      (fun due => decide (due ≤ p.now + (a + b))) || p.timers.any
      (fun due => decide (due ≤ p.now + a))) =
      p.timers.any (fun due => decide (due ≤ p.now + (a + b))) := by
    induction p.timers with
    | nil => rfl
    | cons t ts ih =>
      by_cases h1 : p.now + a < t
      · by_cases h2 : t ≤ p.now + (a + b)
        · simp [List.filter, h1, h2]
        · have h4 : ¬ t ≤ p.now + a := by omega
          simp only [List.filter, h1, decide_True, List.any_cons, h2, decide_False, Bool.false_or,
            h4]
          exact ih
      · have h3 : t ≤ p.now + (a + b) := by omega
        have h4 : t ≤ p.now + a := by omega
        simp [List.filter, h1, h3, h4]
  simp only [elapse, hnow, htimers]
  congr 1
  by_cases hA : p.timers.any (fun due => decide (due ≤ p.now + a)) = true
  · have hAB : p.timers.any (fun due => decide (due ≤ p.now + (a + b))) = true := by
      rw [← hany, hA, Bool.or_true]
    simp only [hA, hAB, if_true]
    split <;> rfl
  · simp only [Bool.not_eq_true] at hA
    rw [hA, Bool.or_false] at hany
    simp only [hA, Bool.false_eq_true, if_false, hany]

/-- What `askQuestion` leaves behind for a question that is not blank: the
question and the loading indicator are the two new children of the chat log,
the input box is empty, and the promise handlers close over the loading
indicator, which is a child of the chat log and older than any element
created later. -/
theorem askQuestion_pending (p : Page) (h : jsTrim p.userInput ≠ "") :
    (askQuestion p).2 = some (p.nextId + 1) ∧
    (askQuestion p).1.chatMessages = p.chatMessages ++
      [⟨p.nextId, "div", "user-message", [.text (jsTrim p.userInput)]⟩,
        ⟨p.nextId + 1, "div", "assistant-message", [.markup loadingMarkup]⟩] ∧
    (askQuestion p).1.userInput = "" ∧
    chatContains (p.nextId + 1) (askQuestion p).1 = true ∧
    p.nextId + 1 < (askQuestion p).1.nextId := by
  have hm : loadingMarkup ≠ "" := by decide
  simp [askQuestion, h, hm, fetch, log, appendChat, scrollChatToEnd, chatContains,
    Element.setTextContent, Element.setInnerHTML]

end ChatApp
